import Mathlib

/-!
Verification of the diagnostic renderer in
packages/hurlfmt/src/cli/logger.rs (function `log_error`).

The renderer is embedded shallowly: every `eprintln!` of the source becomes one
element of an output list of strings, and the two operations that can abort the
Rust call (usize subtraction underflow and `Vec::get(..).unwrap()`) are modelled
with `Option`: `none` is a fatal failure, `some out` is the list of emitted
lines (in order).  Machine integers are `Nat` with explicit checked
subtraction, since overflow is impossible here but underflow is.
-/

namespace Hurlfmt

/-- Output format selector of the external text-styling primitive
(hurl_core text Format: Ansi or Plain). -/
inductive Format where
  | ansi
  | plain
deriving DecidableEq

/-- Modelled from the spec: the external text-styling primitive converts a
styleable text fragment to plain or ANSI-escaped text.  The fixme fragments of
this model are raw unstyled text, so both formats render the text unchanged. -/
def styledToString (fmt : Format) (s : String) : String :=
  match fmt with
  | .ansi => s
  | .plain => s

/-- Modelled from the spec: the bold-red ANSI wrapping that the external
coloring crate applies to the severity token of an error. -/
def boldRed (s : String) : String := "\x1b[1;31m" ++ s ++ "\x1b[0m"

/-- Modelled from the spec: the bold-yellow ANSI wrapping that the external
coloring crate applies to the severity token of a warning. -/
def boldYellow (s : String) : String := "\x1b[1;33m" ++ s ++ "\x1b[0m"

/-- A source position: 1-based line, column with 0 as the no-column sentinel
(hurl_core Pos). -/
structure Pos where
  line : Nat
  column : Nat
deriving DecidableEq

/-- A span of an error; field `stop` embeds the Rust field named `end`
(a Lean keyword). -/
structure SourceInfo where
  start : Pos
  stop : Pos
deriving DecidableEq

/-- The located-error capability the renderer consumes (trait
DisplaySourceError): a description, a span, and a fixme rendering computed
from the raw source lines. -/
structure DisplaySourceError where
  description : String
  sourceInfo : SourceInfo
  fixme : List String → String

/-- Rust usize subtraction: aborts (models a panic) on underflow. -/
def checkedSub (a b : Nat) : Option Nat :=
  if b ≤ a then some (a - b) else none

/-- A run of `n` space characters (Rust: " ".repeat(n)). -/
def spaces (n : Nat) : String := String.mk (List.replicate n ' ')

/-- logger.rs lines 85-91: gutter width from the number of source lines. -/
def lineNumberSize (n : Nat) : Nat :=
  if n < 100 then 2 else if n < 1000 then 3 else 4

/-- logger.rs lines 93-104: the severity token, colorized when requested. -/
def severityToken (color warning : Bool) : String :=
  let t := if warning then "warning" else "error"
  if !color then t
  else if warning then boldYellow t
  else boldRed t

/-- logger.rs line 106: the header line `<severity>: <description>`. -/
def headerLine (color warning : Bool) (desc : String) : String :=
  severityToken color warning ++ ": " ++ desc

/-- logger.rs lines 108-116: the location line, emitted only when a filename
was supplied. -/
def locationLines (g : Nat) (filename : Option String) (start : Pos) :
    List String :=
  match filename with
  | none => []
  | some f =>
      [spaces g ++ "--> " ++ f ++ ":" ++ Nat.repr start.line ++ ":" ++
        Nat.repr start.column]

/-- logger.rs lines 117 and 169: the blank gutter separator line. -/
def sepLine (g : Nat) : String := spaces g ++ " |"

/-- Rust format specifier `:>width`: right-align by left-padding with spaces. -/
def padLeft (s : String) (w : Nat) : String := spaces (w - s.length) ++ s

/-- logger.rs line 120: replace every tab character by four spaces. -/
def tabExpandChars : List Char → List Char
  | [] => []
  | c :: cs =>
      if c = '\t' then ' ' :: ' ' :: ' ' :: ' ' :: tabExpandChars cs
      else c :: tabExpandChars cs

/-- Tab expansion on strings (Rust: str::replace(line, "\t", "    ")). -/
def tabExpand (s : String) : String := String.mk (tabExpandChars s.data)

/-- logger.rs lines 121-130: the context line, with the line number
right-aligned to the gutter width and the (tab-expanded) line prefixed by one
space when non-empty. -/
def contextLine (g lineNo : Nat) (expanded : String) : String :=
  padLeft (Nat.repr lineNo) g ++ " |" ++
    (if expanded = "" then "" else " " ++ expanded)

/-- Rust str::split(newline): split a character list at every newline; the
result always has at least one (possibly empty) piece. -/
def splitNl : List Char → List (List Char)
  | [] => [[]]
  | c :: cs =>
      if c = '\n' then [] :: splitNl cs
      else
        match splitNl cs with
        | [] => [[c]]
        | h :: t => (c :: h) :: t

/-- logger.rs lines 136-146: the whole-line annotation block, one output line
per newline-separated fixme line, each with a three-space indent. -/
def fixmeBlock (g : Nat) (fmt : Format) (fix : String) : List String :=
  (splitNl fix.data).map
    (fun l => spaces g ++ " |   " ++ styledToString fmt (String.mk l))

/-- logger.rs lines 151-159: number of tab characters among the first
`col - 1` characters of the raw context line (the scan breaks at index
`col - 1` or at the end of the line, whichever comes first). -/
def tabShift (line : String) (col : Nat) : Nat :=
  ((line.data.take (col - 1)).filter (fun c => c == '\t')).length

/-- logger.rs lines 160-166: the caret line of column mode. -/
def caretLine (g : Nat) (fmt : Format) (col width tShift : Nat)
    (fix : String) : String :=
  spaces g ++ " | " ++ spaces (col - 1 + tShift * 3) ++
    String.mk (List.replicate (if width > 1 then width else 1) '^') ++ " " ++
    styledToString fmt fix

/-- logger.rs lines 78-170, `log_error`: the full renderer.  `none` models a
panic (out-of-range line lookup or usize underflow); `some out` is the list of
lines written to stderr, in order.  The final `eprintln!("{} |\n", ..)` emits
the separator line and then an empty line. -/
def logError (lines : List String) (color : Bool) (filename : Option String)
    (error : DisplaySourceError) (warning : Bool) : Option (List String) :=
  let g := lineNumberSize lines.length
  let fmt := if color then Format.ansi else Format.plain
  Option.bind (checkedSub error.sourceInfo.start.line 1) fun idx =>
  Option.bind (lines.get? idx) fun rawLine =>
  Option.bind
    (if error.sourceInfo.start.column = 0 then
      some (fixmeBlock g fmt (error.fixme lines))
    else
      Option.bind (lines.get? idx) fun line =>
      Option.bind
        (checkedSub error.sourceInfo.stop.column
          error.sourceInfo.start.column) fun width =>
      some [caretLine g fmt error.sourceInfo.start.column width
        (tabShift line error.sourceInfo.start.column) (error.fixme lines)])
    fun annotLines =>
  some ([headerLine color warning error.description] ++
    locationLines g filename error.sourceInfo.start ++
    [sepLine g, contextLine g error.sourceInfo.start.line (tabExpand rawLine)] ++
    annotLines ++ [sepLine g, ""])

/-! Helper lemmas: how the renderer evaluates in each of its two modes. -/

theorem checkedSub_of_le (a b : Nat) (h : b ≤ a) :
    checkedSub a b = some (a - b) := by
  simp [checkedSub, h]

/-- Evaluation of the renderer in whole-line mode (column sentinel 0). -/
theorem logError_eq_col0 (lines : List String) (color : Bool)
    (filename : Option String) (e : DisplaySourceError) (warning : Bool)
    (ln : String)
    (hline : 1 ≤ e.sourceInfo.start.line)
    (hln : lines.get? (e.sourceInfo.start.line - 1) = some ln)
    (hc : e.sourceInfo.start.column = 0) :
    logError lines color filename e warning =
      some ([headerLine color warning e.description] ++
        locationLines (lineNumberSize lines.length) filename e.sourceInfo.start ++
        [sepLine (lineNumberSize lines.length),
         contextLine (lineNumberSize lines.length) e.sourceInfo.start.line
           (tabExpand ln)] ++
        fixmeBlock (lineNumberSize lines.length)
          (if color then Format.ansi else Format.plain) (e.fixme lines) ++
        [sepLine (lineNumberSize lines.length), ""]) := by
  unfold logError
  rw [checkedSub_of_le _ _ hline]
  rw [List.get?_eq_getElem?] at hln
  simp [hln, hc]

/-- Evaluation of the renderer in column mode (nonzero start column). -/
theorem logError_eq_colPos (lines : List String) (color : Bool)
    (filename : Option String) (e : DisplaySourceError) (warning : Bool)
    (ln : String)
    (hline : 1 ≤ e.sourceInfo.start.line)
    (hln : lines.get? (e.sourceInfo.start.line - 1) = some ln)
    (hc : e.sourceInfo.start.column ≠ 0)
    (he : e.sourceInfo.start.column ≤ e.sourceInfo.stop.column) :
    logError lines color filename e warning =
      some ([headerLine color warning e.description] ++
        locationLines (lineNumberSize lines.length) filename e.sourceInfo.start ++
        [sepLine (lineNumberSize lines.length),
         contextLine (lineNumberSize lines.length) e.sourceInfo.start.line
           (tabExpand ln)] ++
        [caretLine (lineNumberSize lines.length)
          (if color then Format.ansi else Format.plain)
          e.sourceInfo.start.column
          (e.sourceInfo.stop.column - e.sourceInfo.start.column)
          (tabShift ln e.sourceInfo.start.column) (e.fixme lines)] ++
        [sepLine (lineNumberSize lines.length), ""]) := by
  unfold logError
  rw [checkedSub_of_le _ _ hline]
  rw [List.get?_eq_getElem?] at hln
  simp [hln, hc, checkedSub_of_le _ _ he]

/-- C4: for every well-formed input (valid 1-based start line and, in column
mode, an end column at least the start column) the renderer completes: every
line lookup succeeds and no subtraction underflows.  Missing filename, column
0 and empty source lines are all covered by the quantifiers. -/
theorem C4_total_on_wellformed (lines : List String) (color : Bool)
    (filename : Option String) (e : DisplaySourceError) (warning : Bool)
    (h1 : 1 ≤ e.sourceInfo.start.line)
    (h2 : e.sourceInfo.start.line ≤ lines.length)
    (h3 : e.sourceInfo.start.column ≠ 0 →
      e.sourceInfo.start.column ≤ e.sourceInfo.stop.column) :
    (logError lines color filename e warning).isSome := by
  have hlt : e.sourceInfo.start.line - 1 < lines.length := by omega
  have hln : lines.get? (e.sourceInfo.start.line - 1) =
      some (lines.get ⟨e.sourceInfo.start.line - 1, hlt⟩) :=
    List.get?_eq_get hlt
  by_cases hc : e.sourceInfo.start.column = 0
  · rw [logError_eq_col0 lines color filename e warning _ h1 hln hc]; rfl
  · rw [logError_eq_colPos lines color filename e warning _ h1 hln hc (h3 hc)]
    rfl

/-- C4 witness: a concrete well-formed input on which the renderer completes. -/
theorem C4_total_on_wellformed_witness :
    (logError ["GET https://example.org", "HTTP 200"] false none
      ⟨"unexpected token", ⟨⟨1, 5⟩, ⟨1, 8⟩⟩, fun _ => "expecting a URL"⟩
      false).isSome :=
  C4_total_on_wellformed _ _ _ _ _ (by decide) (by decide) (fun _ => by decide)

/-- C5: for every start line outside the valid 1-based range the renderer
fails fatally (`none` models the aborted call): either the line-index
subtraction underflows (line 0) or the line lookup is out of range. -/
theorem C5_out_of_range_fatal (lines : List String) (color : Bool)
    (filename : Option String) (e : DisplaySourceError) (warning : Bool)
    (h : e.sourceInfo.start.line = 0 ∨
      lines.length < e.sourceInfo.start.line) :
    logError lines color filename e warning = none := by
  unfold logError
  rcases h with h | h
  · have hcs : checkedSub e.sourceInfo.start.line 1 = none := by
      simp [checkedSub, h]
    rw [hcs]
    rfl
  · rw [checkedSub_of_le _ _ (by omega)]
    have hget : lines.get? (e.sourceInfo.start.line - 1) = none :=
      List.get?_eq_none.mpr (by omega)
    rw [List.get?_eq_getElem?] at hget
    simp [hget]

/-- C5 witness: a concrete out-of-range start line aborts the renderer. -/
theorem C5_out_of_range_fatal_witness :
    logError ["GET https://example.org"] false none
      ⟨"oops", ⟨⟨3, 1⟩, ⟨3, 2⟩⟩, fun _ => "x"⟩ false = none :=
  C5_out_of_range_fatal _ _ _ _ _ (Or.inr (by decide))

/-- C6: the gutter width is 2 below 100 source lines, 3 below 1000, and 4
from 1000 on; in particular for lengths 1, 99, 100, 999, 1000 and 5000 it is
2, 2, 3, 3, 4 and 4. -/
theorem C6_gutter_width (lines : List String) :
    (lines.length < 100 → lineNumberSize lines.length = 2) ∧
    (100 ≤ lines.length → lines.length < 1000 →
      lineNumberSize lines.length = 3) ∧
    (1000 ≤ lines.length → lineNumberSize lines.length = 4) ∧
    lineNumberSize 1 = 2 ∧ lineNumberSize 99 = 2 ∧
    lineNumberSize 100 = 3 ∧ lineNumberSize 999 = 3 ∧
    lineNumberSize 1000 = 4 ∧ lineNumberSize 5000 = 4 := by
  refine ⟨?_, ?_, ?_, by decide, by decide, by decide, by decide, by decide,
    by decide⟩ <;>
    (intros; unfold lineNumberSize; split_ifs <;> omega)

/-- C6 witness: a 150-line source gets a gutter of width 3. -/
theorem C6_gutter_width_witness :
    lineNumberSize (List.replicate 150 "x").length = 3 :=
  (C6_gutter_width (List.replicate 150 "x")).2.1 (by simp) (by simp)

/-- C3: the end-to-end scenario.  Source lines "GET https://example.org" and
"HTTP 200", description "unexpected token", start line 1 column 5, end
column 8, no warning, no color, no filename: the output is exactly the
header, a blank gutter line, the context line with gutter width 2, the caret
line with 4 leading spaces and three carets followed by the fixme text, a
trailing blank gutter line and a blank line. -/
theorem C3_end_to_end (e : DisplaySourceError)
    (hd : e.description = "unexpected token")
    (hs : e.sourceInfo = ⟨⟨1, 5⟩, ⟨1, 8⟩⟩) :
    logError ["GET https://example.org", "HTTP 200"] false none e false =
      some ["error: unexpected token", "   |",
        " 1 | GET https://example.org",
        "   |     ^^^ " ++ e.fixme ["GET https://example.org", "HTTP 200"],
        "   |", ""] := by
  obtain ⟨d, si, fix⟩ := e
  simp only at hd hs
  subst hd hs
  rw [logError_eq_colPos ["GET https://example.org", "HTTP 200"] false none
    ⟨"unexpected token", ⟨⟨1, 5⟩, ⟨1, 8⟩⟩, fix⟩ false
    "GET https://example.org" (Nat.le_refl _) rfl (by norm_num) (by norm_num)]
  simp only [List.append_eq, List.cons_append, List.nil_append,
    locationLines, Option.some.injEq, List.cons.injEq, and_true]
  refine ⟨by decide, by decide, by decide, ?_, by decide⟩
  show String.append _ (fix ["GET https://example.org", "HTTP 200"]) =
    String.append "   |     ^^^ " (fix ["GET https://example.org", "HTTP 200"])
  congr 1

/-- C3 witness: the scenario with a concrete fixme text. -/
theorem C3_end_to_end_witness :
    logError ["GET https://example.org", "HTTP 200"] false none
      ⟨"unexpected token", ⟨⟨1, 5⟩, ⟨1, 8⟩⟩, fun _ => "expecting a URL"⟩
      false =
    some ["error: unexpected token", "   |",
      " 1 | GET https://example.org", "   |     ^^^ expecting a URL",
      "   |", ""] := by
  have h := C3_end_to_end
    ⟨"unexpected token", ⟨⟨1, 5⟩, ⟨1, 8⟩⟩, fun _ => "expecting a URL"⟩ rfl rfl
  exact h.trans (by decide)

/-- An if-then-else floor at one is the max with one (logger.rs line 164
versus the specified max(1, width)). -/
theorem ifGtOne_eq_max (w : Nat) : (if w > 1 then w else 1) = max 1 w := by
  rcases Nat.lt_or_ge 1 w with h | h
  · rw [if_pos h, Nat.max_eq_right (Nat.le_of_lt h)]
  · rw [if_neg (Nat.not_lt.mpr h), Nat.max_eq_left h]

/-- The caret line with its run length written as a max. -/
theorem caretLine_eq_max (g : Nat) (fmt : Format) (col w t : Nat)
    (fix : String) :
    caretLine g fmt col w t fix =
      spaces g ++ " | " ++ spaces (col - 1 + t * 3) ++
        String.mk (List.replicate (max 1 w) '^') ++ " " ++
        styledToString fmt fix := by
  unfold caretLine
  rw [ifGtOne_eq_max]

/-- C7: in column mode the caret run length is max(1, end.column -
start.column); in particular a zero-width span still gets one caret. -/
theorem C7_caret_run_floor (lines : List String) (color : Bool)
    (filename : Option String) (e : DisplaySourceError) (warning : Bool)
    (ln : String)
    (h1 : 1 ≤ e.sourceInfo.start.line)
    (hln : lines.get? (e.sourceInfo.start.line - 1) = some ln)
    (hc : e.sourceInfo.start.column ≠ 0)
    (he : e.sourceInfo.start.column ≤ e.sourceInfo.stop.column) :
    ∃ pre post, logError lines color filename e warning =
      some (pre ++ [spaces (lineNumberSize lines.length) ++ " | " ++
        spaces (e.sourceInfo.start.column - 1 +
          tabShift ln e.sourceInfo.start.column * 3) ++
        String.mk (List.replicate
          (max 1 (e.sourceInfo.stop.column - e.sourceInfo.start.column))
          '^') ++ " " ++
        styledToString (if color then Format.ansi else Format.plain)
          (e.fixme lines)] ++ post) := by
  refine ⟨[headerLine color warning e.description] ++
    locationLines (lineNumberSize lines.length) filename e.sourceInfo.start ++
    [sepLine (lineNumberSize lines.length),
     contextLine (lineNumberSize lines.length) e.sourceInfo.start.line
       (tabExpand ln)],
    [sepLine (lineNumberSize lines.length), ""], ?_⟩
  rw [logError_eq_colPos lines color filename e warning ln h1 hln hc he,
    caretLine_eq_max]

/-- C7 witness: a zero-width span (start and end column both 5) produces a
single caret. -/
theorem C7_caret_run_floor_witness :
    ∃ pre post,
      logError ["GET https://example.org"] false none
        ⟨"d", ⟨⟨1, 5⟩, ⟨1, 5⟩⟩, fun _ => "fix"⟩ false =
      some (pre ++ ["   |     ^ fix"] ++ post) := by
  obtain ⟨pre, post, h⟩ := C7_caret_run_floor ["GET https://example.org"]
    false none ⟨"d", ⟨⟨1, 5⟩, ⟨1, 5⟩⟩, fun _ => "fix"⟩ false
    "GET https://example.org" (Nat.le_refl _) rfl (by norm_num) (by norm_num)
  refine ⟨pre, post, ?_⟩
  rw [h]
  congr 3

/-- The tab-shift scan counts exactly the tab characters at indices strictly
below the zero-based caret index. -/
theorem tabShift_eq_countP (ln : String) (col : Nat) :
    tabShift ln col =
      (ln.data.take (col - 1)).countP (fun c => c == '\t') := by
  unfold tabShift
  rw [List.countP_eq_length_filter]

/-- C1: in column mode the leading-space count between the bar prefix and the
first caret is (start.column - 1) + 3 * tab_shift, where tab_shift counts the
tabs of the original line at character indices strictly below
start.column - 1. -/
theorem C1_caret_leading_spaces (lines : List String) (color : Bool)
    (filename : Option String) (e : DisplaySourceError) (warning : Bool)
    (ln : String)
    (h1 : 1 ≤ e.sourceInfo.start.line)
    (hln : lines.get? (e.sourceInfo.start.line - 1) = some ln)
    (hc : e.sourceInfo.start.column ≠ 0)
    (he : e.sourceInfo.start.column ≤ e.sourceInfo.stop.column) :
    ∃ pre post, logError lines color filename e warning =
      some (pre ++ [spaces (lineNumberSize lines.length) ++ " | " ++
        spaces ((e.sourceInfo.start.column - 1) +
          3 * ((ln.data.take (e.sourceInfo.start.column - 1)).countP
            (fun c => c == '\t'))) ++
        String.mk (List.replicate
          (if e.sourceInfo.stop.column - e.sourceInfo.start.column > 1
           then e.sourceInfo.stop.column - e.sourceInfo.start.column
           else 1) '^') ++ " " ++
        styledToString (if color then Format.ansi else Format.plain)
          (e.fixme lines)] ++ post) := by
  have hkey : caretLine (lineNumberSize lines.length)
      (if color then Format.ansi else Format.plain)
      e.sourceInfo.start.column
      (e.sourceInfo.stop.column - e.sourceInfo.start.column)
      (tabShift ln e.sourceInfo.start.column) (e.fixme lines) =
      spaces (lineNumberSize lines.length) ++ " | " ++
        spaces ((e.sourceInfo.start.column - 1) +
          3 * ((ln.data.take (e.sourceInfo.start.column - 1)).countP
            (fun c => c == '\t'))) ++
        String.mk (List.replicate
          (if e.sourceInfo.stop.column - e.sourceInfo.start.column > 1
           then e.sourceInfo.stop.column - e.sourceInfo.start.column
           else 1) '^') ++ " " ++
        styledToString (if color then Format.ansi else Format.plain)
          (e.fixme lines) := by
    unfold caretLine
    rw [tabShift_eq_countP, Nat.mul_comm]
  refine ⟨[headerLine color warning e.description] ++
    locationLines (lineNumberSize lines.length) filename e.sourceInfo.start ++
    [sepLine (lineNumberSize lines.length),
     contextLine (lineNumberSize lines.length) e.sourceInfo.start.line
       (tabExpand ln)],
    [sepLine (lineNumberSize lines.length), ""], ?_⟩
  rw [logError_eq_colPos lines color filename e warning ln h1 hln hc he, hkey]

/-- C1 witness: context line with one leading tab and start column 2 gives a
caret line with exactly four leading spaces under the bar. -/
theorem C1_caret_leading_spaces_witness :
    ∃ pre post,
      logError ["\tfoo"] false none
        ⟨"d", ⟨⟨1, 2⟩, ⟨1, 2⟩⟩, fun _ => "fix"⟩ false =
      some (pre ++ ["   |     ^ fix"] ++ post) := by
  obtain ⟨pre, post, h⟩ := C1_caret_leading_spaces ["\tfoo"] false none
    ⟨"d", ⟨⟨1, 2⟩, ⟨1, 2⟩⟩, fun _ => "fix"⟩ false "\tfoo"
    (Nat.le_refl _) rfl (by norm_num) (by norm_num)
  refine ⟨pre, post, ?_⟩
  rw [h]
  congr 3

/-- C2: the annotation branches exactly on the column-0 sentinel: column 0
yields the multi-line fixme block (one line per newline-separated fixme
line, gutter spaces, a bar and a three-space indent) and no caret line; a
nonzero column yields exactly the one caret line and no fixme block. -/
theorem C2_branch_on_column_sentinel (lines : List String) (color : Bool)
    (filename : Option String) (e : DisplaySourceError) (warning : Bool)
    (ln : String)
    (h1 : 1 ≤ e.sourceInfo.start.line)
    (hln : lines.get? (e.sourceInfo.start.line - 1) = some ln)
    (hwf : e.sourceInfo.start.column ≠ 0 →
      e.sourceInfo.start.column ≤ e.sourceInfo.stop.column) :
    ∃ annotLines, logError lines color filename e warning =
      some ([headerLine color warning e.description] ++
        locationLines (lineNumberSize lines.length) filename
          e.sourceInfo.start ++
        [sepLine (lineNumberSize lines.length),
         contextLine (lineNumberSize lines.length) e.sourceInfo.start.line
           (tabExpand ln)] ++
        annotLines ++ [sepLine (lineNumberSize lines.length), ""]) ∧
      (e.sourceInfo.start.column = 0 →
        annotLines = (splitNl (e.fixme lines).data).map
          (fun l => spaces (lineNumberSize lines.length) ++ " |   " ++
            styledToString (if color then Format.ansi else Format.plain)
              (String.mk l))) ∧
      (e.sourceInfo.start.column ≠ 0 →
        annotLines = [caretLine (lineNumberSize lines.length)
          (if color then Format.ansi else Format.plain)
          e.sourceInfo.start.column
          (e.sourceInfo.stop.column - e.sourceInfo.start.column)
          (tabShift ln e.sourceInfo.start.column) (e.fixme lines)]) := by
  by_cases hc : e.sourceInfo.start.column = 0
  · exact ⟨fixmeBlock (lineNumberSize lines.length)
      (if color then Format.ansi else Format.plain) (e.fixme lines),
      logError_eq_col0 lines color filename e warning ln h1 hln hc,
      fun _ => rfl, fun hne => absurd hc hne⟩
  · exact ⟨[caretLine (lineNumberSize lines.length)
      (if color then Format.ansi else Format.plain)
      e.sourceInfo.start.column
      (e.sourceInfo.stop.column - e.sourceInfo.start.column)
      (tabShift ln e.sourceInfo.start.column) (e.fixme lines)],
      logError_eq_colPos lines color filename e warning ln h1 hln hc (hwf hc),
      fun h0 => absurd h0 hc, fun _ => rfl⟩

/-- C2 witness: a column-0 error with a two-line fixme produces the two-line
indented block and nothing else between the context line and the trailer. -/
theorem C2_branch_on_column_sentinel_witness :
    logError ["a"] false none
      ⟨"d", ⟨⟨1, 0⟩, ⟨1, 0⟩⟩, fun _ => "l1\nl2"⟩ false =
    some ["error: d", "   |", " 1 | a", "   |   l1", "   |   l2",
      "   |", ""] := by
  obtain ⟨ann, hout, h0, _⟩ := C2_branch_on_column_sentinel ["a"] false none
    ⟨"d", ⟨⟨1, 0⟩, ⟨1, 0⟩⟩, fun _ => "l1\nl2"⟩ false "a"
    (Nat.le_refl _) rfl (fun hne => absurd rfl hne)
  rw [h0 rfl] at hout
  exact hout.trans (by decide)

/-- Tab expansion replaces every tab character by exactly four spaces and
leaves every other character unchanged. -/
theorem tabExpandChars_eq_flatMap (cs : List Char) :
    tabExpandChars cs =
      cs.flatMap (fun c => if c = '\t' then [' ', ' ', ' ', ' ']
        else [c]) := by
  induction cs with
  | nil => rfl
  | cons c cs ih =>
    unfold tabExpandChars
    by_cases h : c = '\t' <;> simp [h, ih]

/-- C8: the context line is the source line at the 1-based start line with
every tab replaced by four spaces, preceded by the right-aligned line number
and a bar, with one extra space exactly when the expanded line is
non-empty. -/
theorem C8_context_line (lines : List String) (color : Bool)
    (filename : Option String) (e : DisplaySourceError) (warning : Bool)
    (ln : String)
    (h1 : 1 ≤ e.sourceInfo.start.line)
    (hln : lines.get? (e.sourceInfo.start.line - 1) = some ln)
    (hwf : e.sourceInfo.start.column ≠ 0 →
      e.sourceInfo.start.column ≤ e.sourceInfo.stop.column) :
    (∃ annotLines, logError lines color filename e warning =
      some ([headerLine color warning e.description] ++
        locationLines (lineNumberSize lines.length) filename
          e.sourceInfo.start ++
        [sepLine (lineNumberSize lines.length),
         padLeft (Nat.repr e.sourceInfo.start.line)
             (lineNumberSize lines.length) ++ " |" ++
           (if tabExpand ln = "" then "" else " " ++ tabExpand ln)] ++
        annotLines ++ [sepLine (lineNumberSize lines.length), ""])) ∧
      (tabExpand ln).data =
        ln.data.flatMap (fun c => if c = '\t' then [' ', ' ', ' ', ' ']
          else [c]) := by
  refine ⟨?_, tabExpandChars_eq_flatMap ln.data⟩
  by_cases hc : e.sourceInfo.start.column = 0
  · exact ⟨fixmeBlock (lineNumberSize lines.length)
      (if color then Format.ansi else Format.plain) (e.fixme lines),
      logError_eq_col0 lines color filename e warning ln h1 hln hc⟩
  · exact ⟨[caretLine (lineNumberSize lines.length)
      (if color then Format.ansi else Format.plain)
      e.sourceInfo.start.column
      (e.sourceInfo.stop.column - e.sourceInfo.start.column)
      (tabShift ln e.sourceInfo.start.column) (e.fixme lines)],
      logError_eq_colPos lines color filename e warning ln h1 hln hc (hwf hc)⟩

/-- C8 witness: the line with a leading tab is displayed with the tab
expanded to four spaces, prefixed by the aligned line number. -/
theorem C8_context_line_witness :
    (∃ annotLines, logError ["\tfoo"] false none
      ⟨"d", ⟨⟨1, 2⟩, ⟨1, 2⟩⟩, fun _ => "fix"⟩ false =
      some (["error: d"] ++ [] ++ ["   |", " 1 |     foo"] ++
        annotLines ++ ["   |", ""])) ∧
      (tabExpand "\tfoo").data = "    foo".data := by
  obtain ⟨⟨ann, hout⟩, hexp⟩ := C8_context_line ["\tfoo"] false none
    ⟨"d", ⟨⟨1, 2⟩, ⟨1, 2⟩⟩, fun _ => "fix"⟩ false "\tfoo"
    (Nat.le_refl _) rfl (fun _ => by norm_num)
  refine ⟨⟨ann, ?_⟩, by decide⟩
  rw [hout]
  congr 3

/-- C10: column mode never indexes into the context line: with a start
column beyond the end of the line the tab scan simply covers the whole line
and the caret line is still emitted. -/
theorem C10_column_beyond_line (lines : List String) (color : Bool)
    (filename : Option String) (e : DisplaySourceError) (warning : Bool)
    (ln : String)
    (h1 : 1 ≤ e.sourceInfo.start.line)
    (hln : lines.get? (e.sourceInfo.start.line - 1) = some ln)
    (hc : 1 ≤ e.sourceInfo.start.column)
    (he : e.sourceInfo.start.column ≤ e.sourceInfo.stop.column)
    (hb : ln.data.length < e.sourceInfo.start.column) :
    ∃ pre post, logError lines color filename e warning =
      some (pre ++ [caretLine (lineNumberSize lines.length)
        (if color then Format.ansi else Format.plain)
        e.sourceInfo.start.column
        (e.sourceInfo.stop.column - e.sourceInfo.start.column)
        ((ln.data.filter (fun c => c == '\t')).length)
        (e.fixme lines)] ++ post) := by
  have hts : tabShift ln e.sourceInfo.start.column =
      (ln.data.filter (fun c => c == '\t')).length := by
    unfold tabShift
    rw [List.take_of_length_le (by omega)]
  refine ⟨[headerLine color warning e.description] ++
    locationLines (lineNumberSize lines.length) filename e.sourceInfo.start ++
    [sepLine (lineNumberSize lines.length),
     contextLine (lineNumberSize lines.length) e.sourceInfo.start.line
       (tabExpand ln)],
    [sepLine (lineNumberSize lines.length), ""], ?_⟩
  rw [logError_eq_colPos lines color filename e warning ln h1 hln
    (by omega) he, hts]

/-- C10 witness: start column 10 on the two-character line "ab" still
renders, with the carets placed past the end of the displayed line. -/
theorem C10_column_beyond_line_witness :
    ∃ pre post,
      logError ["ab"] false none
        ⟨"d", ⟨⟨1, 10⟩, ⟨1, 12⟩⟩, fun _ => "fix"⟩ false =
      some (pre ++ ["   |          ^^ fix"] ++ post) := by
  obtain ⟨pre, post, h⟩ := C10_column_beyond_line ["ab"] false none
    ⟨"d", ⟨⟨1, 10⟩, ⟨1, 12⟩⟩, fun _ => "fix"⟩ false "ab"
    (Nat.le_refl _) rfl (by norm_num) (by norm_num) (by norm_num)
  refine ⟨pre, post, ?_⟩
  rw [h]
  congr 3

/-! ANSI-freedom machinery for the color claim. -/

/-- A string is free of ANSI escape sequences: it contains no ESC
character. -/
def escFree (s : String) : Prop := ∀ c ∈ s.data, c ≠ '\x1b'

instance (s : String) : Decidable (escFree s) :=
  List.decidableBAll _ s.data

theorem escFree_append {a b : String} (ha : escFree a) (hb : escFree b) :
    escFree (a ++ b) := by
  intro c hc
  rw [String.data_append] at hc
  rcases List.mem_append.mp hc with h | h
  exacts [ha c h, hb c h]

theorem escFree_mk {l : List Char} (h : ∀ c ∈ l, c ≠ '\x1b') :
    escFree (String.mk l) := h

theorem escFree_replicate (n : Nat) (ch : Char) (h : ch ≠ '\x1b') :
    escFree (String.mk (List.replicate n ch)) := by
  intro c hc
  rw [List.eq_of_mem_replicate hc]
  exact h

theorem escFree_spaces (n : Nat) : escFree (spaces n) :=
  escFree_replicate n ' ' (by decide)

theorem digitChar_ne_esc (n : Nat) : Nat.digitChar n ≠ '\x1b' := by
  rcases n with _|_|_|_|_|_|_|_|_|_|_|_|_|_|_|_|n <;> simp [Nat.digitChar]

theorem toDigitsCore_esc (b : Nat) :
    ∀ (f n : Nat) (ds : List Char), (∀ c ∈ ds, c ≠ '\x1b') →
      ∀ c ∈ Nat.toDigitsCore b f n ds, c ≠ '\x1b' := by
  intro f
  induction f with
  | zero => intro n ds h; exact h
  | succ f ih =>
    intro n ds h c hc
    rw [Nat.toDigitsCore] at hc
    split at hc
    · rcases List.mem_cons.mp hc with h1 | h1
      · subst h1; exact digitChar_ne_esc _
      · exact h c h1
    · refine ih _ _ ?_ c hc
      intro d hd
      rcases List.mem_cons.mp hd with h1 | h1
      · subst h1; exact digitChar_ne_esc _
      · exact h d h1

theorem escFree_repr (n : Nat) : escFree (Nat.repr n) := by
  intro c hc
  exact toDigitsCore_esc 10 (n + 1) n [] (by simp) c hc

theorem escFree_tabExpand {s : String} (h : escFree s) :
    escFree (tabExpand s) := by
  intro c hc
  have : ∀ cs : List Char, (∀ d ∈ cs, d ≠ '\x1b') →
      ∀ d ∈ tabExpandChars cs, d ≠ '\x1b' := by
    intro cs
    induction cs with
    | nil => intro _ d hd; simp [tabExpandChars] at hd
    | cons a as ih =>
      intro hcs d hd
      unfold tabExpandChars at hd
      split at hd
      · simp only [List.mem_cons] at hd
        rcases hd with h1 | h1 | h1 | h1 | h1
        · subst h1; decide
        · subst h1; decide
        · subst h1; decide
        · subst h1; decide
        · exact ih (fun x hx => hcs x (List.mem_cons_of_mem _ hx)) d h1
      · rcases List.mem_cons.mp hd with h1 | h1
        · subst h1; exact hcs d (List.mem_cons_self _ _)
        · exact ih (fun x hx => hcs x (List.mem_cons_of_mem _ hx)) d h1
  exact this s.data h c hc

theorem escFree_styled {s : String} (fmt : Format) (h : escFree s) :
    escFree (styledToString fmt s) := by
  cases fmt <;> exact h

/-- Every character of every piece of the newline split occurs in the split
string. -/
theorem mem_splitNl {cs : List Char} :
    ∀ l ∈ splitNl cs, ∀ c ∈ l, c ∈ cs := by
  induction cs with
  | nil =>
    intro l hl c hc
    simp [splitNl] at hl
    subst hl
    simp at hc
  | cons a as ih =>
    intro l hl c hc
    unfold splitNl at hl
    split at hl
    · rcases List.mem_cons.mp hl with h1 | h1
      · subst h1; simp at hc
      · exact List.mem_cons_of_mem _ (ih l h1 c hc)
    · rename_i hne
      rcases hsp : splitNl as with _ | ⟨h0, t⟩ <;> rw [hsp] at hl
      · simp at hl
        subst hl
        simp at hc
        subst hc
        exact List.mem_cons_self _ _
      · rcases List.mem_cons.mp hl with h1 | h1
        · subst h1
          rcases List.mem_cons.mp hc with h2 | h2
          · subst h2; exact List.mem_cons_self _ _
          · refine List.mem_cons_of_mem _ (ih h0 ?_ c h2)
            rw [hsp]
            exact List.mem_cons_self _ _
        · refine List.mem_cons_of_mem _ (ih l ?_ c hc)
          rw [hsp]
          exact List.mem_cons_of_mem _ h1

theorem escFree_severityToken_plain (warning : Bool) :
    escFree (severityToken false warning) := by
  cases warning <;> decide

theorem escFree_headerLine (warning : Bool) {desc : String}
    (h : escFree desc) : escFree (headerLine false warning desc) :=
  escFree_append (escFree_append (escFree_severityToken_plain warning)
    (by decide)) h

theorem escFree_sepLine (g : Nat) : escFree (sepLine g) :=
  escFree_append (escFree_spaces g) (by decide)

theorem escFree_padLeft {s : String} (w : Nat) (h : escFree s) :
    escFree (padLeft s w) :=
  escFree_append (escFree_spaces _) h

theorem escFree_contextLine (g n : Nat) {exp : String} (h : escFree exp) :
    escFree (contextLine g n exp) := by
  unfold contextLine
  refine escFree_append
    (escFree_append (escFree_padLeft g (escFree_repr n)) (by decide)) ?_
  split
  · decide
  · exact escFree_append (by decide) h

theorem escFree_locationLines (g : Nat) (filename : Option String)
    (start : Pos) (hfn : ∀ f, filename = some f → escFree f) :
    ∀ l ∈ locationLines g filename start, escFree l := by
  intro l hl
  cases filename with
  | none => simp [locationLines] at hl
  | some f =>
    simp only [locationLines, List.mem_singleton] at hl
    subst hl
    exact escFree_append (escFree_append (escFree_append (escFree_append
      (escFree_append (escFree_append (escFree_spaces g) (by decide))
        (hfn f rfl)) (by decide)) (escFree_repr _)) (by decide))
      (escFree_repr _)

theorem escFree_caretLine (g : Nat) (fmt : Format) (col w t : Nat)
    {fix : String} (h : escFree fix) :
    escFree (caretLine g fmt col w t fix) := by
  unfold caretLine
  exact escFree_append (escFree_append (escFree_append (escFree_append
    (escFree_append (escFree_spaces g) (by decide)) (escFree_spaces _))
    (escFree_replicate _ '^' (by decide))) (by decide))
    (escFree_styled fmt h)

theorem escFree_fixmeBlock (g : Nat) (fmt : Format) {fix : String}
    (h : escFree fix) : ∀ l ∈ fixmeBlock g fmt fix, escFree l := by
  intro l hl
  unfold fixmeBlock at hl
  rcases List.mem_map.mp hl with ⟨piece, hp, rfl⟩
  refine escFree_append (escFree_append (escFree_spaces g) (by decide))
    (escFree_styled fmt ?_)
  exact fun c hc => h c (mem_splitNl piece hp c hc)

/-- C9: without color the output contains no ANSI escape sequence (given
ANSI-free inputs) and the severity token is the literal "error" or
"warning"; with color the severity token is wrapped in the bold-red
sequence for errors and the bold-yellow sequence for warnings. -/
theorem C9_color_modes (lines : List String) (filename : Option String)
    (e : DisplaySourceError) (warning : Bool) (ln : String)
    (h1 : 1 ≤ e.sourceInfo.start.line)
    (hln : lines.get? (e.sourceInfo.start.line - 1) = some ln)
    (hwf : e.sourceInfo.start.column ≠ 0 →
      e.sourceInfo.start.column ≤ e.sourceInfo.stop.column)
    (hdesc : escFree e.description)
    (hfix : escFree (e.fixme lines))
    (hlnc : escFree ln)
    (hfn : ∀ f, filename = some f → escFree f) :
    (∃ out, logError lines false filename e warning = some out ∧
      (∀ l ∈ out, escFree l) ∧
      out.head? = some ((if warning then "warning" else "error") ++ ": " ++
        e.description)) ∧
    (∃ out, logError lines true filename e warning = some out ∧
      out.head? = some ((if warning then boldYellow "warning"
        else boldRed "error") ++ ": " ++ e.description)) := by
  constructor
  · by_cases hc : e.sourceInfo.start.column = 0
    · refine ⟨_, logError_eq_col0 lines false filename e warning ln h1 hln hc,
        ?_, by cases warning <;> rfl⟩
      refine List.forall_mem_append.mpr ⟨List.forall_mem_append.mpr
        ⟨List.forall_mem_append.mpr ⟨List.forall_mem_append.mpr ⟨?_, ?_⟩, ?_⟩,
          ?_⟩, ?_⟩
      · intro l hl
        simp only [List.mem_singleton] at hl
        subst hl
        exact escFree_headerLine warning hdesc
      · exact escFree_locationLines _ filename _ hfn
      · intro l hl
        rcases List.mem_cons.mp hl with h' | h'
        · subst h'; exact escFree_sepLine _
        · simp only [List.mem_singleton] at h'
          subst h'
          exact escFree_contextLine _ _ (escFree_tabExpand hlnc)
      · exact escFree_fixmeBlock _ _ hfix
      · intro l hl
        rcases List.mem_cons.mp hl with h' | h'
        · subst h'; exact escFree_sepLine _
        · simp only [List.mem_singleton] at h'
          subst h'
          decide
    · refine ⟨_, logError_eq_colPos lines false filename e warning ln h1 hln
        hc (hwf hc), ?_, by cases warning <;> rfl⟩
      refine List.forall_mem_append.mpr ⟨List.forall_mem_append.mpr
        ⟨List.forall_mem_append.mpr ⟨List.forall_mem_append.mpr ⟨?_, ?_⟩, ?_⟩,
          ?_⟩, ?_⟩
      · intro l hl
        simp only [List.mem_singleton] at hl
        subst hl
        exact escFree_headerLine warning hdesc
      · exact escFree_locationLines _ filename _ hfn
      · intro l hl
        rcases List.mem_cons.mp hl with h' | h'
        · subst h'; exact escFree_sepLine _
        · simp only [List.mem_singleton] at h'
          subst h'
          exact escFree_contextLine _ _ (escFree_tabExpand hlnc)
      · intro l hl
        simp only [List.mem_singleton] at hl
        subst hl
        exact escFree_caretLine _ _ _ _ _ hfix
      · intro l hl
        rcases List.mem_cons.mp hl with h' | h'
        · subst h'; exact escFree_sepLine _
        · simp only [List.mem_singleton] at h'
          subst h'
          decide
  · by_cases hc : e.sourceInfo.start.column = 0
    · exact ⟨_, logError_eq_col0 lines true filename e warning ln h1 hln hc,
        by cases warning <;> rfl⟩
    · exact ⟨_, logError_eq_colPos lines true filename e warning ln h1 hln hc
        (hwf hc), by cases warning <;> rfl⟩

/-- C9 witness: a concrete error rendered without and with color. -/
theorem C9_color_modes_witness :
    (∃ out, logError ["GET x"] false none
        ⟨"unexpected token", ⟨⟨1, 1⟩, ⟨1, 2⟩⟩, fun _ => "fix"⟩ false =
        some out ∧
      (∀ l ∈ out, escFree l) ∧
      out.head? = some ((if false then "warning" else "error") ++ ": " ++
        "unexpected token")) ∧
    (∃ out, logError ["GET x"] true none
        ⟨"unexpected token", ⟨⟨1, 1⟩, ⟨1, 2⟩⟩, fun _ => "fix"⟩ false =
        some out ∧
      out.head? = some ((if false then boldYellow "warning"
        else boldRed "error") ++ ": " ++ "unexpected token")) :=
  C9_color_modes ["GET x"] none
    ⟨"unexpected token", ⟨⟨1, 1⟩, ⟨1, 2⟩⟩, fun _ => "fix"⟩ false "GET x"
    (by decide) rfl (fun _ => by decide) (by decide) (by decide) (by decide)
    (fun f h => Option.noConfusion h)

end Hurlfmt
